import Mathlib

/-!
Verification development for the `agentclient.py` protocol engine of the
gemini-st repository: a shallow embedding of the GeminiClient class
(JSON-RPC read-loop dispatch, write-loop handshake ordering, filesystem
proxy handlers, permission responses) together with theorems settling the
specification claims about it.

Modelling conventions:
* JSON values are the inductive `JVal` (floats do not occur in any claim
  and are not modelled).
* Python exceptions are `Except String`; a handler that cannot raise is a
  plain function.  Every raise point of the source is represented at the
  place the source raises.
* The local filesystem touched by the `fs/*` proxy handlers is the
  abstract state `FS`: a set of existing directories and a map from paths
  to file contents.  `os.makedirs` of the empty string fails exactly as in
  Python; other environmental failures (permissions) are represented by
  the abstract `FS.readFile` error case.
* The child process's stdin is modelled as the list of emitted messages
  (structured `JVal` responses for the read side, `OutRequest` values for
  the write-loop side); `json.dumps` with its default separators is
  modelled by `pyDumps` where the exact wire text matters.
-/

/-- A JSON value as produced by Python's json.loads (floats omitted:
no claim involves them). -/
inductive JVal where
  | null : JVal
  | bool : Bool → JVal
  | int : Int → JVal
  | str : String → JVal
  | arr : List JVal → JVal
  | obj : List (String × JVal) → JVal

/-- Dictionary lookup on the field list of a JSON object
(first binding wins, as in a Python dict there is at most one). -/
def lookupField (l : List (String × JVal)) (k : String) : Option JVal :=
  match l with
  | [] => none
  | (k0, v) :: rest => if k0 = k then some v else lookupField rest k

/-- Python truthiness of a decoded JSON value (`if x:`). -/
def pyTruthy (v : JVal) : Bool :=
  match v with
  | JVal.null => false
  | JVal.bool b => b
  | JVal.int n => if n = 0 then false else true
  | JVal.str s => if s = "" then false else true
  | JVal.arr l => if l.isEmpty then false else true
  | JVal.obj l => if l.isEmpty then false else true

/-- Python truthiness of `dict.get` output (absent key gives None, falsy). -/
def pyTruthyOpt (v : Option JVal) : Bool :=
  match v with
  | none => false
  | some x => pyTruthy x

/-- A single quote character, used in Python error texts and repr output. -/
def squo : String := String.singleton (Char.ofNat 39)

mutual

/-- Python repr of a decoded JSON value, as interpolated by an f-string
for non-string values. -/
def pyRepr : JVal → String
  | JVal.null => "None"
  | JVal.bool b => if b then "True" else "False"
  | JVal.int n => toString n
  | JVal.str s => squo ++ s ++ squo
  | JVal.arr l => "[" ++ String.intercalate ", " (pyReprList l) ++ "]"
  | JVal.obj l => "\x7b" ++ String.intercalate ", " (pyReprFields l) ++ "\x7d"

/-- Python repr of each element of a JSON array. -/
def pyReprList : List JVal → List String
  | [] => []
  | v :: rest => pyRepr v :: pyReprList rest

/-- Python repr of each binding of a JSON object. -/
def pyReprFields : List (String × JVal) → List String
  | [] => []
  | (k, v) :: rest => (squo ++ k ++ squo ++ ": " ++ pyRepr v) :: pyReprFields rest

end
/-- Python str() of a decoded JSON value, as interpolated by an f-string. -/
def pyFStr (v : JVal) : String :=
  match v with
  | JVal.str s => s
  | x => pyRepr x

/-- The comma-joined key:value rendering in GeminiClient._handle_error:
", ".join([f"..." for k, v in data.items()]). -/
def joinKVs (kvs : List (String × JVal)) : String :=
  String.intercalate ", " (kvs.map (fun kv => kv.1 ++ ":" ++ pyFStr kv.2))

/-- Python int() applied to a decoded JSON value (GeminiClient._send_response
does int(msg_id)); non-convertible values raise. -/
def pyInt (v : JVal) : Except String Int :=
  match v with
  | JVal.int n => Except.ok n
  | JVal.bool b => Except.ok (if b then 1 else 0)
  | JVal.str s =>
      match s.toInt? with
      | some n => Except.ok n
      | none => Except.error ("invalid literal for int() with base 10: " ++ squo ++ s ++ squo)
  | _ => Except.error "int() argument must be a string or a number"

/-- Posix os.path.dirname: the prefix up to the last slash, with trailing
slashes stripped unless the head is all slashes; empty when no slash. -/
def pyDirname (p : String) : String :=
  let cs := p.toList
  match cs.reverse.findIdx? (fun c => c = '/') with
  | none => ""
  | some rIdx =>
    let head := cs.take (cs.length - rIdx)
    if head.all (fun c => c = '/') then String.mk head
    else String.mk (((head.reverse).dropWhile (fun c => c = '/')).reverse)

/-- Abstract local filesystem state seen by the fs proxy handlers:
directories known to exist and a path-to-content map (most recent
write first). -/
structure FS where
  dirs : List String
  files : List (String × String)

/-- Reading a file: the content most recently written at the path, or a
Python OSError text when the path is absent (the abstract stand-in for
any local read failure). -/
def FS.readFile (fs : FS) (p : String) : Except String String :=
  match fs.files.find? (fun e => e.1 = p) with
  | some e => Except.ok e.2
  | none => Except.error ("[Errno 2] No such file or directory: " ++ squo ++ p ++ squo)

/-- os.makedirs(d, exist_ok=True): fails on the empty string exactly as
Python does, otherwise records the directory (and implicitly its
parents) as existing. -/
def FS.makedirs (fs : FS) (d : String) : Except String FS :=
  if d = "" then
    Except.error ("[Errno 2] No such file or directory: " ++ squo ++ squo)
  else Except.ok { fs with dirs := d :: fs.dirs }

/-- open(p, w) followed by f.write(c): overwrites the file at p.  In the
handler flow this runs only after makedirs succeeded, so the parent
directory exists; other environmental write failures are not modelled. -/
def FS.writeFile (fs : FS) (p c : String) : FS :=
  { fs with files := (p, c) :: fs.files }

/-- The mutable state of a GeminiClient instance (GeminiClient.__init__):
the id counter, the captured session id (stored raw, as Python does),
the inited flag and the two one-shot handshake events. -/
structure ClientState where
  message_id : Int
  session_id : JVal
  inited : Bool
  init_event : Bool
  session_event : Bool
  cwd : String

/-- The state of a freshly constructed client. -/
def initClientState (cwd : String) : ClientState :=
  { message_id := 0, session_id := JVal.str "", inited := false,
    init_event := false, session_event := false, cwd := cwd }

/-- One invocation of a callback from the callbacks dictionary.  Payloads
are carried exactly as Python passes them (raw decoded JSON values where
the source passes them through). -/
inductive CallbackEvent where
  | on_message : JVal → CallbackEvent
  | on_thought : JVal → CallbackEvent
  | on_error : String → CallbackEvent
  | on_stop : JVal → JVal → CallbackEvent
  | on_permission_request : JVal → JVal → JVal → CallbackEvent
  | on_session_ready : CallbackEvent
  | on_exit : CallbackEvent

/-- The JSON-RPC error codes of the ErrorCode class. -/
def ErrorCode.AuthRequired : Int := -32000

/-- InternalError = -32603. -/
def ErrorCode.InternalError : Int := -32603

/-- The message text of the missing-path ValueError raised by both fs
proxy handlers. -/
def missingPathMsg : String := "Missing " ++ squo ++ "path" ++ squo ++ " parameter"

/-- GeminiClient._send_error_response: builds the error response object
(the raw msg_id is used unchanged). -/
def sendErrorResponse (msgId : JVal) (code : Int) (errorMsg : String) : JVal :=
  JVal.obj [("jsonrpc", JVal.str "2.0"), ("id", msgId),
    ("error", JVal.obj [("code", JVal.int code), ("message", JVal.str errorMsg)])]

/-- GeminiClient._send_response: int(msg_id) may raise; the result field
is included only when resp is truthy (a non-empty dict). -/
def sendResponse (msgId : JVal) (resp : JVal) : Except String JVal :=
  match pyInt msgId with
  | Except.error e => Except.error e
  | Except.ok n =>
      Except.ok (JVal.obj ([("jsonrpc", JVal.str "2.0"), ("id", JVal.int n)] ++
        (if pyTruthy resp then [("result", resp)] else [])))

/-- The try block of GeminiClient._handle_fs_read, including its except
clause: every raise inside (missing path, non-string path given to open,
read failure, int(msg_id) failure inside _send_response) is converted to
an InternalError response.  Returns the emitted response lines. -/
def fsReadTry (fs : FS) (msgId : JVal) (path : Option JVal) : List JVal :=
  if pyTruthyOpt path = false then
    [sendErrorResponse msgId ErrorCode.InternalError missingPathMsg]
  else
    match path with
    | some (JVal.str p) =>
        match fs.readFile p with
        | Except.error e => [sendErrorResponse msgId ErrorCode.InternalError e]
        | Except.ok content =>
            match sendResponse msgId (JVal.obj [("content", JVal.str content)]) with
            | Except.ok resp => [resp]
            | Except.error e => [sendErrorResponse msgId ErrorCode.InternalError e]
    | some v =>
        [sendErrorResponse msgId ErrorCode.InternalError
          ("expected str, bytes or os.PathLike object, not " ++ pyRepr v)]
    | none => []

/-- The try block of GeminiClient._handle_fs_write, likewise converting
every raise into an InternalError response.  Returns the updated
filesystem and the emitted response lines.  A non-string content value
makes f.write raise after open(w) truncated the file, as in Python. -/
def fsWriteTry (fs : FS) (msgId : JVal) (path : Option JVal) (content : Option JVal) :
    FS × List JVal :=
  let contentVal := content.getD (JVal.str "")
  if pyTruthyOpt path = false then
    (fs, [sendErrorResponse msgId ErrorCode.InternalError missingPathMsg])
  else
    match path with
    | some (JVal.str p) =>
        match fs.makedirs (pyDirname p) with
        | Except.error e => (fs, [sendErrorResponse msgId ErrorCode.InternalError e])
        | Except.ok fs1 =>
            match contentVal with
            | JVal.str c =>
                let fs2 := fs1.writeFile p c
                match sendResponse msgId (JVal.obj [("success", JVal.bool true)]) with
                | Except.ok resp => (fs2, [resp])
                | Except.error e =>
                    (fs2, [sendErrorResponse msgId ErrorCode.InternalError e])
            | v =>
                (fs1.writeFile p "",
                  [sendErrorResponse msgId ErrorCode.InternalError
                    ("write() argument must be str, not " ++ pyRepr v)])
    | some v =>
        (fs, [sendErrorResponse msgId ErrorCode.InternalError
          ("expected str, bytes or os.PathLike object, not " ++ pyRepr v)])
    | none => (fs, [])

/-- GeminiClient._handle_fs_read.  The statements before the try block
(params = message.get with a dict default, msg_id = message.get, a debug
log doing params.get) raise outside any handler when params is present
but not a dict; that raise escapes the handler. -/
def handleFsRead (fs : FS) (mfields : List (String × JVal)) :
    Except String (List JVal) :=
  let params := (lookupField mfields "params").getD (JVal.obj [])
  let msgId := (lookupField mfields "id").getD JVal.null
  match params with
  | JVal.obj ps => Except.ok (fsReadTry fs msgId (lookupField ps "path"))
  | v => Except.error ("AttributeError: " ++ pyRepr v ++ " object has no attribute get")

/-- GeminiClient._handle_fs_write, with the same before-try raise window
as the read handler. -/
def handleFsWrite (fs : FS) (mfields : List (String × JVal)) :
    Except String (FS × List JVal) :=
  let params := (lookupField mfields "params").getD (JVal.obj [])
  let msgId := (lookupField mfields "id").getD JVal.null
  match params with
  | JVal.obj ps =>
      Except.ok (fsWriteTry fs msgId (lookupField ps "path") (lookupField ps "content"))
  | v => Except.error ("AttributeError: " ++ pyRepr v ++ " object has no attribute get")

/-- GeminiClient._handle_error: error = message.get("error", default dict);
err_msg = error.get("message", "Internal error"); when error.data is a
dict the comma-joined key:value summary replaces err_msg; on_error fires
with err_msg plus two newlines.  error.get raises when the error value is
not a dict; string concatenation raises when the fired message is not a
string (only reachable when data is not a dict). -/
def handleError (mfields : List (String × JVal)) : Except String (List CallbackEvent) :=
  let errorVal := (lookupField mfields "error").getD (JVal.obj [])
  match errorVal with
  | JVal.obj efs =>
      let errMsg0 := (lookupField efs "message").getD (JVal.str "Internal error")
      match lookupField efs "data" with
      | some (JVal.obj kvs) =>
          Except.ok [CallbackEvent.on_error (joinKVs kvs ++ "\n\n")]
      | _ =>
          match errMsg0 with
          | JVal.str s => Except.ok [CallbackEvent.on_error (s ++ "\n\n")]
          | v => Except.error ("can only concatenate str (not " ++ pyRepr v ++ ") to str")
  | v => Except.error ("AttributeError: " ++ pyRepr v ++ " object has no attribute get")

/-- GeminiClient._handle_result, given the field list of the result
object: agentCapabilities marks the client inited and sets the init
event; otherwise sessionId is captured (raw) and on_session_ready fires;
otherwise stopReason fires on_stop; otherwise nothing happens. -/
def handleResult (st : ClientState) (msgId : JVal) (rfs : List (String × JVal)) :
    ClientState × List CallbackEvent :=
  if (lookupField rfs "agentCapabilities").isSome then
    ({ st with inited := true, init_event := true }, [])
  else
    match lookupField rfs "sessionId" with
    | some sid =>
        ({ st with session_id := sid, session_event := true },
          [CallbackEvent.on_session_ready])
    | none =>
        match lookupField rfs "stopReason" with
        | some reason => (st, [CallbackEvent.on_stop msgId reason])
        | none => (st, [])

/-- GeminiClient._handle_session_update, given the params.update value:
update is subscripted (raising on a missing key or a non-dict), the
sessionUpdate discriminant is compared against the two chunk kinds
(a non-string discriminant equals neither), content.get("text") is
checked for truthiness before firing on_message or on_thought, and any
other discriminant is a logged no-op. -/
def handleSessionUpdate (u : JVal) : Except String (List CallbackEvent) :=
  match u with
  | JVal.obj ufs =>
      match lookupField ufs "sessionUpdate" with
      | none => Except.error "KeyError: sessionUpdate"
      | some (JVal.str sv) =>
          if sv = "agent_message_chunk" then
            match lookupField ufs "content" with
            | none => Except.error "KeyError: content"
            | some (JVal.obj cfs) =>
                let t := lookupField cfs "text"
                Except.ok (if pyTruthyOpt t then
                  [CallbackEvent.on_message (t.getD JVal.null)] else [])
            | some v =>
                Except.error ("AttributeError: " ++ pyRepr v ++ " object has no attribute get")
          else if sv = "agent_thought_chunk" then
            match lookupField ufs "content" with
            | none => Except.error "KeyError: content"
            | some (JVal.obj cfs) =>
                let t := lookupField cfs "text"
                Except.ok (if pyTruthyOpt t then
                  [CallbackEvent.on_thought (t.getD JVal.null)] else [])
            | some v =>
                Except.error ("AttributeError: " ++ pyRepr v ++ " object has no attribute get")
          else Except.ok []
      | some _ => Except.ok []
  | v => Except.error ("TypeError: " ++ pyRepr v ++ " is not subscriptable")

/-- GeminiClient._handle_permission_request: fires
on_permission_request(message id, params.options defaulting to an empty
list, params.toolCall defaulting to an empty dict); message id and
message params are subscripted and raise when missing. -/
def handlePermissionRequest (mfields : List (String × JVal)) :
    Except String (List CallbackEvent) :=
  match lookupField mfields "id" with
  | none => Except.error "KeyError: id"
  | some i =>
      match lookupField mfields "params" with
      | none => Except.error "KeyError: params"
      | some (JVal.obj ps) =>
          Except.ok [CallbackEvent.on_permission_request i
            ((lookupField ps "options").getD (JVal.arr []))
            ((lookupField ps "toolCall").getD (JVal.obj []))]
      | some v => Except.error ("AttributeError: " ++ pyRepr v ++ " object has no attribute get")

/-- GeminiClient._handle_message: dispatch of one decoded message, in the
precedence of the source (result, then error, then the four methods,
then a logged no-op).  Returns the updated filesystem and client state,
the callbacks fired and the response lines written back; an uncaught
exception inside the dispatch is the error case. -/
def handleMessage (fs : FS) (st : ClientState) (m : JVal) :
    Except String (FS × ClientState × List CallbackEvent × List JVal) :=
  match m with
  | JVal.obj mfields =>
      match lookupField mfields "result" with
      | some r =>
          match lookupField mfields "id" with
          | none => Except.error "KeyError: id"
          | some i =>
              match r with
              | JVal.obj rfs =>
                  let p := handleResult st i rfs
                  Except.ok (fs, p.1, p.2, [])
              | v => Except.error ("TypeError: argument of type " ++ pyRepr v ++ " is not iterable")
      | none =>
          if (lookupField mfields "error").isSome then
            match handleError mfields with
            | Except.error e => Except.error e
            | Except.ok evs => Except.ok (fs, st, evs, [])
          else
            match lookupField mfields "method" with
            | some (JVal.str mth) =>
                if mth = "session/update" then
                  match lookupField mfields "params" with
                  | none => Except.error "KeyError: params"
                  | some (JVal.obj ps) =>
                      match lookupField ps "update" with
                      | none => Except.error "KeyError: update"
                      | some u =>
                          match handleSessionUpdate u with
                          | Except.error e => Except.error e
                          | Except.ok evs => Except.ok (fs, st, evs, [])
                  | some v =>
                      Except.error ("TypeError: " ++ pyRepr v ++ " is not subscriptable")
                else if mth = "fs/read_text_file" then
                  match handleFsRead fs mfields with
                  | Except.error e => Except.error e
                  | Except.ok out => Except.ok (fs, st, [], out)
                else if mth = "fs/write_text_file" then
                  match handleFsWrite fs mfields with
                  | Except.error e => Except.error e
                  | Except.ok p => Except.ok (p.1, st, [], p.2)
                else if mth = "session/request_permission" then
                  match handlePermissionRequest mfields with
                  | Except.error e => Except.error e
                  | Except.ok evs => Except.ok (fs, st, evs, [])
                else Except.ok (fs, st, [], [])
            | _ => Except.ok (fs, st, [], [])
  | v => Except.error ("TypeError: argument of type " ++ pyRepr v ++ " is not iterable")

/-- One inbound line after json.loads: none stands for a line that is not
decodable JSON (json.loads raises), some m for a decoded value. -/
def DecodedLine : Type := Option JVal

/-- GeminiClient._read_loop over a finite list of inbound lines: lines
are processed in order; the try clause wraps the whole for loop, so the
first decode failure or dispatch exception is logged and ends the loop;
the finally clause fires on_exit exactly once in every termination.
Returns the final filesystem and client state, the full callback trace
and all response lines written. -/
def readLoop (fs : FS) (st : ClientState) :
    List (Option JVal) → FS × ClientState × List CallbackEvent × List JVal
  | [] => (fs, st, [CallbackEvent.on_exit], [])
  | none :: _ => (fs, st, [CallbackEvent.on_exit], [])
  | some m :: rest =>
      match handleMessage fs st m with
      | Except.error _ => (fs, st, [CallbackEvent.on_exit], [])
      | Except.ok (fs1, st1, evs, out) =>
          let r := readLoop fs1 st1 rest
          (r.1, r.2.1, evs ++ r.2.2.1, out ++ r.2.2.2)

/-- The callback trace of a read-loop run. -/
def readLoopEvents (fs : FS) (st : ClientState) (lines : List (Option JVal)) :
    List CallbackEvent :=
  (readLoop fs st lines).2.2.1

/-- An outbound JSON-RPC request as built by GeminiClient._send_request:
jsonrpc is the constant "2.0" and the id is the current value of the
message_id counter, which _send_request reads but never advances. -/
structure OutRequest where
  id : Int
  method : String
  params : JVal

/-- GeminiClient._send_request: stamps the request with the current
counter value (msg_id = self.message_id, no increment). -/
def sendRequest (st : ClientState) (method : String) (params : JVal) : OutRequest :=
  { id := st.message_id, method := method, params := params }

/-- GeminiClient._next_message_id: advances the counter and returns the
new value. -/
def nextMessageId (st : ClientState) : Int × ClientState :=
  let st1 := { st with message_id := st.message_id + 1 }
  (st1.message_id, st1)

/-- GeminiClient.send_input: advances the counter, enqueues the text,
returns the advanced id.  The queued item is some text; the stop
sentinel enqueued by stop() is none. -/
def send_input (st : ClientState) (text : String) : Int × ClientState × Option String :=
  let p := nextMessageId st
  (p.1, p.2, some text)

/-- The initialize request of GeminiClient._agent_initialize. -/
def agentInitializeReq (st : ClientState) : OutRequest :=
  sendRequest st "initialize" (JVal.obj
    [("protocolVersion", JVal.int 1),
     ("clientCapabilities", JVal.obj
       [("fs", JVal.obj
         [("readTextFile", JVal.bool false), ("writeTextFile", JVal.bool false)])])])

/-- The session/new request of GeminiClient._agent_session_new. -/
def agentSessionNewReq (st : ClientState) : OutRequest :=
  sendRequest st "session/new" (JVal.obj
    [("cwd", JVal.str st.cwd), ("mcpServers", JVal.arr [])])

/-- The session/prompt request of GeminiClient._agent_session_prompt. -/
def agentSessionPromptReq (st : ClientState) (text : String) : OutRequest :=
  sendRequest st "session/prompt" (JVal.obj
    [("sessionId", st.session_id),
     ("prompt", JVal.arr [JVal.obj [("type", JVal.str "text"), ("text", JVal.str text)]])])

/-- The session/cancel path (GeminiClient.agent_session_cancel): advances
the counter, then _send_request stamps the advanced value, which is also
returned to the caller. -/
def agentSessionCancel (st : ClientState) : Int × ClientState × OutRequest :=
  let p := nextMessageId st
  (p.1, p.2, sendRequest p.2 "session/cancel"
    (JVal.obj [("sessionId", p.2.session_id)]))

/-- The drain phase of GeminiClient._write_loop: dequeued texts become
session/prompt requests in queue order until the stop sentinel (or an
empty queue, on which the real loop blocks and emits nothing more). -/
def drainQueue (st : ClientState) : List (Option String) → List OutRequest
  | [] => []
  | none :: _ => []
  | some t :: rest => agentSessionPromptReq st t :: drainQueue st rest

/-- GeminiClient._write_loop: the requests it emits, in order — first
initialize, then session/new, then the drained prompts.  The handshake
waits (init_event, session_event) only delay emission and are elided; the
state is the snapshot the loop reads (nothing in the loop itself advances
the counter, and the claims proved below do not depend on concurrent
counter advances between two emissions). -/
def writeLoopRequests (st : ClientState) (queueItems : List (Option String)) :
    List OutRequest :=
  agentInitializeReq st :: agentSessionNewReq st :: drainQueue st queueItems

/-- N calls of GeminiClient.send_input in order: the final client state
and the queue contents they produce. -/
def submitTexts (st : ClientState) (texts : List String) :
    ClientState × List (Option String) :=
  match texts with
  | [] => (st, [])
  | t :: rest =>
      let p := send_input st t
      let q := submitTexts p.2.1 rest
      (q.1, p.2.2 :: q.2)

/-- One escaped character of json.dumps string output. -/
def pyEscapeChar (ch : Char) : String :=
  if ch = '"' then "\\\"" else if ch = '\\' then "\\\\"
  else if ch = '\n' then "\\n" else String.singleton ch

/-- json.dumps escaping of a string body (the characters occurring in
this development need no \uXXXX forms). -/
def pyEscape (s : String) : String :=
  String.join (s.toList.map pyEscapeChar)

mutual

/-- Python json.dumps with its default arguments: separators default to
a comma-space between items and a colon-space after each key. -/
def pyDumps : JVal → String
  | JVal.null => "null"
  | JVal.bool b => if b then "true" else "false"
  | JVal.int n => toString n
  | JVal.str s => "\"" ++ pyEscape s ++ "\""
  | JVal.arr l => "[" ++ String.intercalate ", " (pyDumpsList l) ++ "]"
  | JVal.obj l => "\x7b" ++ String.intercalate ", " (pyDumpsFields l) ++ "\x7d"

/-- json.dumps of each array element. -/
def pyDumpsList : List JVal → List String
  | [] => []
  | v :: rest => pyDumps v :: pyDumpsList rest

/-- json.dumps of each object binding (key colon-space value). -/
def pyDumpsFields : List (String × JVal) → List String
  | [] => []
  | (k, v) :: rest => ("\"" ++ pyEscape k ++ "\": " ++ pyDumps v) :: pyDumpsFields rest

end

/-- The single wire line GeminiClient._send_response writes:
json.dumps of the response object followed by a newline flush
(the newline itself is appended by the write call and not part of the
dumped text compared here). -/
def sendResponseLine (msgId : JVal) (resp : JVal) : Except String String :=
  match sendResponse msgId resp with
  | Except.error e => Except.error e
  | Except.ok r => Except.ok (pyDumps r)

/-- GeminiClient.send_permission_response: one _send_response carrying
the selected-outcome result object. -/
def send_permission_response (msgId : JVal) (optionId : String) : Except String String :=
  sendResponseLine msgId (JVal.obj
    [("outcome", JVal.obj
      [("outcome", JVal.str "selected"), ("optionId", JVal.str optionId)])])

/-- A lookup on a JSON value: key lookup on objects, none otherwise. -/
def jLookup (v : JVal) (k : String) : Option JVal :=
  match v with
  | JVal.obj l => lookupField l k
  | _ => none

/-- The empty local filesystem. -/
def fs0 : FS := { dirs := [], files := [] }

/-- A freshly constructed client with a fixed working directory. -/
def st0 : ClientState := initClientState "/home/user"

/-- A small filesystem holding one readable file. -/
def fsB : FS := { dirs := ["/tmp"], files := [("/tmp/a.txt", "data")] }

/-- The filesystem state after a successful fs/write_text_file of content
c at path p: the parent directory created by makedirs and the file
overwritten. -/
def fsAfterWrite (fs : FS) (p c : String) : FS :=
  { fs with dirs := pyDirname p :: fs.dirs, files := (p, c) :: fs.files }

/-- An inbound session/update notification whose update carries the given
sessionUpdate discriminant and an optional content.text string. -/
def sessionUpdateMsg (su : String) (t : Option String) : JVal :=
  JVal.obj [("jsonrpc", JVal.str "2.0"), ("method", JVal.str "session/update"),
    ("params", JVal.obj [("update", JVal.obj
      [("sessionUpdate", JVal.str su),
       ("content", JVal.obj (match t with
         | some s => [("text", JVal.str s)]
         | none => []))])])]

/-- The agent_message_chunk notification carrying the text hello. -/
def helloChunkMsg : JVal := sessionUpdateMsg "agent_message_chunk" (some "hello")

/-- A decoded JSON object carrying none of result, error and method. -/
def unknownShapeMsg : JVal :=
  JVal.obj [("jsonrpc", JVal.str "2.0"), ("foo", JVal.int 1)]

/-- A result message without an id: dispatch subscripts the missing id
and raises KeyError. -/
def resultNoIdMsg : JVal :=
  JVal.obj [("result", JVal.obj [("sessionId", JVal.str "s1")])]

/-- The initialize result of the handshake scenario. -/
def capsResultMsg : JVal :=
  JVal.obj [("jsonrpc", JVal.str "2.0"), ("id", JVal.int 1),
    ("result", JVal.obj [("agentCapabilities", JVal.obj [])])]

/-- A result carrying a sessionId. -/
def sessionResultMsg (i : Int) (sid : String) : JVal :=
  JVal.obj [("jsonrpc", JVal.str "2.0"), ("id", JVal.int i),
    ("result", JVal.obj [("sessionId", JVal.str sid)])]

/-- An inbound error message with message text M and a one-entry data
mapping a to b. -/
def errDataMsg : JVal :=
  JVal.obj [("jsonrpc", JVal.str "2.0"), ("id", JVal.int 4),
    ("error", JVal.obj [("message", JVal.str "M"),
      ("data", JVal.obj [("a", JVal.str "b")])])]

/-- An inbound error message with the given message text and optional
data value. -/
def errorMsgWith (i : JVal) (m : String) (data : Option JVal) : JVal :=
  JVal.obj [("jsonrpc", JVal.str "2.0"), ("id", i),
    ("error", JVal.obj ([("message", JVal.str m)] ++
      (match data with
       | some d => [("data", d)]
       | none => [])))]

/-- An inbound fs/read_text_file request with the given id and params. -/
def fsReadMsg (i : Int) (ps : List (String × JVal)) : JVal :=
  JVal.obj [("jsonrpc", JVal.str "2.0"), ("id", JVal.int i),
    ("method", JVal.str "fs/read_text_file"), ("params", JVal.obj ps)]

/-- An inbound fs/write_text_file request with the given id, path and
content. -/
def fsWriteMsg (i : Int) (p c : String) : JVal :=
  JVal.obj [("jsonrpc", JVal.str "2.0"), ("id", JVal.int i),
    ("method", JVal.str "fs/write_text_file"),
    ("params", JVal.obj [("path", JVal.str p), ("content", JVal.str c)])]

/-- The success response the read handler sends: result carries the file
content. -/
def contentResponse (i : Int) (c : String) : JVal :=
  JVal.obj [("jsonrpc", JVal.str "2.0"), ("id", JVal.int i),
    ("result", JVal.obj [("content", JVal.str c)])]

/-- The success response the write handler sends. -/
def successResponse (i : Int) : JVal :=
  JVal.obj [("jsonrpc", JVal.str "2.0"), ("id", JVal.int i),
    ("result", JVal.obj [("success", JVal.bool true)])]

/-- The exact line claimed by the specification for
respondToPermission(7, allow): compact, no space after colon or comma. -/
def specCompactPermissionLine : String :=
  "\x7b\"jsonrpc\":\"2.0\",\"id\":7,\"result\":\x7b\"outcome\":\x7b\"outcome\":\"selected\",\"optionId\":\"allow\"\x7d\x7d\x7d"

/-- The line the code actually produces for respondToPermission(7, allow):
json.dumps default separators put a space after each colon and comma. -/
def pyPermissionLine : String :=
  "\x7b\"jsonrpc\": \"2.0\", \"id\": 7, \"result\": \x7b\"outcome\": \x7b\"outcome\": \"selected\", \"optionId\": \"allow\"\x7d\x7d\x7d"

/-- The drain phase turns a queue of texts followed by the stop sentinel
into prompt requests in exactly the queue order. -/
theorem drainQueue_map_some (st : ClientState) (texts : List String) :
    drainQueue st (texts.map some ++ [none]) = texts.map (agentSessionPromptReq st) := by
  induction texts with
  | nil => rfl
  | cons t rest ih => simp [drainQueue, ih]

/-- Submitting texts in order enqueues exactly those texts, in order. -/
theorem submitTexts_queue (st : ClientState) (texts : List String) :
    (submitTexts st texts).2 = texts.map some := by
  induction texts generalizing st with
  | nil => rfl
  | cons t rest ih => simp [submitTexts, send_input, ih]

/-- Claim C5: for every run of the write-loop and every N texts submitted
via send_input, all N are queued, the outbound stream opens with
initialize, then session/new, and the N session/prompt requests follow in
exactly the order the texts were submitted. -/
theorem writeLoop_handshake_then_prompts_in_order (st : ClientState) (texts : List String) :
    (submitTexts st texts).2 = texts.map some
    ∧ writeLoopRequests (submitTexts st texts).1 ((submitTexts st texts).2 ++ [none]) =
        agentInitializeReq (submitTexts st texts).1 ::
        agentSessionNewReq (submitTexts st texts).1 ::
        texts.map (agentSessionPromptReq (submitTexts st texts).1) := by
  refine ⟨submitTexts_queue st texts, ?_⟩
  rw [submitTexts_queue st texts]
  unfold writeLoopRequests
  rw [drainQueue_map_some]

/-- Claim C3 counterexample: in the run where stop() is called before any
send_input, the write-loop emits two distinct outbound requests
(initialize and session/new) both carrying id 0: outbound ids are not
unique. -/
theorem writeLoop_duplicate_ids_counterexample :
    (writeLoopRequests (initClientState "/w") [none]).map OutRequest.id = [0, 0]
    ∧ (writeLoopRequests (initClientState "/w") [none]).map OutRequest.method =
        ["initialize", "session/new"] := by
  exact ⟨rfl, rfl⟩

/-- Claim C3 amended: every outbound request is stamped with the current
value of the client-owned counter, which _send_request itself never
advances; only send_input and agent_session_cancel advance it (by one).
Hence ids are client-generated and non-decreasing along the stream, but
not unique: the first two requests of every write-loop run (initialize
and session/new) carry the same id. -/
theorem outbound_ids_current_counter (st : ClientState) (method : String)
    (params : JVal) (items : List (Option String)) (t : String) :
    (sendRequest st method params).id = st.message_id
    ∧ ((writeLoopRequests st items).map OutRequest.id).take 2 =
        [st.message_id, st.message_id]
    ∧ (send_input st t).1 = st.message_id + 1
    ∧ (send_input st t).2.1.message_id = st.message_id + 1
    ∧ (agentSessionCancel st).2.2.id = st.message_id + 1 := by
  exact ⟨rfl, rfl, rfl, rfl, rfl⟩

/-- Claim C9 counterexample: respondToPermission(7, allow) does not
produce the compact line the specification states; json.dumps default
separators insert a space after every colon and comma. -/
theorem permission_response_line_counterexample :
    send_permission_response (JVal.int 7) "allow" = Except.ok pyPermissionLine
    ∧ pyPermissionLine ≠ specCompactPermissionLine := by
  refine ⟨rfl, ?_⟩
  decide

/-- Claim C9 amended: for every integer requestId and every option id,
send_permission_response emits exactly one JSON-RPC response line whose
id equals requestId and whose result is the selected-outcome object,
serialized by json.dumps with its default separators (a space after each
colon and comma); respondToPermission(7, allow) produces the spaced
line. -/
theorem permission_response_line (rid : Int) (opt : String) :
    send_permission_response (JVal.int rid) opt =
      Except.ok (pyDumps (JVal.obj [("jsonrpc", JVal.str "2.0"), ("id", JVal.int rid),
        ("result", JVal.obj [("outcome", JVal.obj
          [("outcome", JVal.str "selected"), ("optionId", JVal.str opt)])])]))
    ∧ send_permission_response (JVal.int 7) "allow" = Except.ok pyPermissionLine := by
  exact ⟨rfl, rfl⟩

/-- Claim C1 counterexample: an undecodable line terminates the read-loop
session.  With inbound lines [undecodable, valid agent_message_chunk],
the run fires only on_exit: the valid second line is never processed and
its on_message callback never fires, because the try clause of _read_loop
wraps the whole for loop rather than one iteration. -/
theorem read_loop_stops_on_bad_line_counterexample :
    readLoopEvents fs0 st0 [none, some helloChunkMsg] = [CallbackEvent.on_exit]
    ∧ readLoopEvents fs0 st0 [some helloChunkMsg] =
        [CallbackEvent.on_message (JVal.str "hello"), CallbackEvent.on_exit]
    ∧ CallbackEvent.on_message (JVal.str "hello") ∉
        readLoopEvents fs0 st0 [none, some helloChunkMsg] := by
  refine ⟨rfl, rfl, ?_⟩
  have h : readLoopEvents fs0 st0 [none, some helloChunkMsg] = [CallbackEvent.on_exit] := rfl
  rw [h]
  simp

/-- Claim C1 amended: a line that is not decodable JSON, or a message
whose dispatch raises (such as a result without an id), is caught by the
try clause around the whole read loop: the error is logged, no further
line is processed, and the session ends with exactly one on_exit.  Only a
decoded JSON object lacking all of result, error and method is a logged
no-op after which the loop does continue with the remaining lines. -/
theorem read_loop_error_handling (fs : FS) (st : ClientState)
    (rest : List (Option JVal)) :
    readLoopEvents fs st (none :: rest) = [CallbackEvent.on_exit]
    ∧ readLoop fs st (some unknownShapeMsg :: rest) = readLoop fs st rest
    ∧ readLoopEvents fs st (some resultNoIdMsg :: rest) = [CallbackEvent.on_exit] := by
  refine ⟨rfl, ?_, rfl⟩
  show (let r := readLoop fs st rest; (r.1, r.2.1, [] ++ r.2.2.1, [] ++ r.2.2.2)) =
    readLoop fs st rest
  simp

/-- Claim C2 counterexample: for an inbound error whose data is the
mapping from a to b and whose message is M, on_error fires with the
comma-joined summary alone (plus the two-newline suffix): the summary
replaces the extracted message instead of being appended to it, and the
fired text does not contain M at all. -/
theorem error_data_replaces_message_counterexample :
    handleMessage fs0 st0 errDataMsg =
      Except.ok (fs0, st0, [CallbackEvent.on_error ("a:b" ++ "\n\n")], [])
    ∧ ¬ List.IsInfix ("M".toList) (("a:b" ++ "\n\n").toList) := by
  exact ⟨rfl, by decide⟩

/-- Claim C2 amended: for every inbound message containing error, the
engine extracts error.message; when error.data is a mapping, the
comma-joined key:value summary of the mapping replaces the extracted
message; on_error then fires with the resulting text suffixed by two
newlines. -/
theorem error_dispatch (fs : FS) (st : ClientState) (i : JVal) (m : String)
    (kvs : List (String × JVal)) :
    handleMessage fs st (errorMsgWith i m (some (JVal.obj kvs))) =
      Except.ok (fs, st, [CallbackEvent.on_error (joinKVs kvs ++ "\n\n")], [])
    ∧ handleMessage fs st (errorMsgWith i m none) =
      Except.ok (fs, st, [CallbackEvent.on_error (m ++ "\n\n")], []) := by
  exact ⟨rfl, rfl⟩

/-- Claim C4 counterexample: two inbound results each carrying a
sessionId make on_session_ready fire twice in one session lifetime (and
the captured id is the latest one): capture is not exactly-once over
arbitrary result sequences. -/
theorem session_ready_fires_twice_counterexample :
    readLoopEvents fs0 st0 [some (sessionResultMsg 2 "s1"), some (sessionResultMsg 3 "s2")] =
      [CallbackEvent.on_session_ready, CallbackEvent.on_session_ready, CallbackEvent.on_exit]
    ∧ (readLoop fs0 st0 [some (sessionResultMsg 2 "s1"), some (sessionResultMsg 3 "s2")]).2.1.session_id =
        JVal.str "s2" := by
  exact ⟨rfl, rfl⟩

/-- Claim C4 amended: every inbound result carrying a sessionId (and no
agentCapabilities) captures it and fires on_session_ready — once per such
result, not once per lifetime.  In the scenario where the agent sends an
agentCapabilities result followed by a single sessionId result s1, the
engine marks itself initialized, captures sessionId s1, and
on_session_ready fires exactly once. -/
theorem session_ready_scenario (fs : FS) (st : ClientState) :
    readLoop fs st [some capsResultMsg, some (sessionResultMsg 2 "s1")] =
      (fs, { st with inited := true, init_event := true,
                     session_id := JVal.str "s1", session_event := true },
       [CallbackEvent.on_session_ready, CallbackEvent.on_exit], []) := by
  rfl

/-- Claim C10: an inbound message carrying a result and an id whose
result object contains none of agentCapabilities, sessionId and
stopReason fires no callback, writes nothing back, and leaves the
filesystem and the whole client state (session id, inited flag, both
handshake events) unchanged. -/
theorem unrecognized_result_frame (fs : FS) (st : ClientState) (i : JVal)
    (rfs mfields : List (String × JVal))
    (hres : lookupField mfields "result" = some (JVal.obj rfs))
    (hid : lookupField mfields "id" = some i)
    (hcaps : lookupField rfs "agentCapabilities" = none)
    (hsess : lookupField rfs "sessionId" = none)
    (hstop : lookupField rfs "stopReason" = none) :
    handleMessage fs st (JVal.obj mfields) = Except.ok (fs, st, [], []) := by
  simp [handleMessage, hres, hid, handleResult, hcaps, hsess, hstop]

/-- Witness for claim C10: a concrete result message whose result object
has only an unrecognized key is a complete no-op. -/
theorem unrecognized_result_frame_witness :
    handleMessage fs0 st0 (JVal.obj [("jsonrpc", JVal.str "2.0"), ("id", JVal.int 5),
      ("result", JVal.obj [("foo", JVal.int 1)])]) = Except.ok (fs0, st0, [], []) := by
  exact unrecognized_result_frame fs0 st0 (JVal.int 5) [("foo", JVal.int 1)]
    [("jsonrpc", JVal.str "2.0"), ("id", JVal.int 5), ("result", JVal.obj [("foo", JVal.int 1)])]
    rfl rfl rfl rfl rfl

/-- Claim C6: for an inbound session/update whose update carries a given
sessionUpdate discriminant and whose content.text is either absent or a
string: agent_message_chunk fires on_message with that text exactly when
the text is present and non-empty, agent_thought_chunk fires on_thought
under the same rule, and any other discriminant triggers no callback;
nothing else changes and nothing is written back. -/
theorem session_update_chunk_dispatch (fs : FS) (st : ClientState)
    (su : String) (t : Option String) :
    (su = "agent_message_chunk" →
      handleMessage fs st (sessionUpdateMsg su t) =
        Except.ok (fs, st,
          (match t with
           | some s => if s = "" then [] else [CallbackEvent.on_message (JVal.str s)]
           | none => []), []))
    ∧ (su = "agent_thought_chunk" →
      handleMessage fs st (sessionUpdateMsg su t) =
        Except.ok (fs, st,
          (match t with
           | some s => if s = "" then [] else [CallbackEvent.on_thought (JVal.str s)]
           | none => []), []))
    ∧ (su ≠ "agent_message_chunk" → su ≠ "agent_thought_chunk" →
      handleMessage fs st (sessionUpdateMsg su t) = Except.ok (fs, st, [], [])) := by
  refine ⟨?_, ?_, ?_⟩
  · intro h
    subst h
    cases t with
    | none => rfl
    | some s =>
        by_cases hs : s = "" <;>
          simp [sessionUpdateMsg, handleMessage, handleSessionUpdate, lookupField,
            pyTruthyOpt, pyTruthy, hs]
  · intro h
    subst h
    cases t with
    | none => rfl
    | some s =>
        by_cases hs : s = "" <;>
          simp [sessionUpdateMsg, handleMessage, handleSessionUpdate, lookupField,
            pyTruthyOpt, pyTruthy, hs]
  · intro h1 h2
    simp [sessionUpdateMsg, handleMessage, handleSessionUpdate, lookupField, h1, h2]

/-- Witness for claim C6: the scenario notification with text hello fires
exactly on_message(hello) and nothing else. -/
theorem session_update_chunk_dispatch_witness :
    handleMessage fs0 st0 (sessionUpdateMsg "agent_message_chunk" (some "hello")) =
      Except.ok (fs0, st0, [CallbackEvent.on_message (JVal.str "hello")], []) := by
  have h := (session_update_chunk_dispatch fs0 st0 "agent_message_chunk" (some "hello")).1 rfl
  simpa using h

/-- Claim C7: for every fs/read_text_file request, a missing path
parameter yields an InternalError (-32603) response with the
missing-path message; a successful read yields a response whose result
is the content object; a failing read yields an error response carrying
the textual failure description; and error responses never carry a
result field.  In every case the handler returns normally (no exception
escapes), fires no callback and leaves the filesystem and client state
unchanged. -/
theorem fs_read_handler (fs : FS) (st : ClientState) (i : Int)
    (ps : List (String × JVal)) :
    (lookupField ps "path" = none →
      handleMessage fs st (fsReadMsg i ps) =
        Except.ok (fs, st, [],
          [sendErrorResponse (JVal.int i) ErrorCode.InternalError missingPathMsg]))
    ∧ (∀ p content, lookupField ps "path" = some (JVal.str p) → p ≠ "" →
        fs.readFile p = Except.ok content →
        handleMessage fs st (fsReadMsg i ps) =
          Except.ok (fs, st, [], [contentResponse i content]))
    ∧ (∀ p e, lookupField ps "path" = some (JVal.str p) → p ≠ "" →
        fs.readFile p = Except.error e →
        handleMessage fs st (fsReadMsg i ps) =
          Except.ok (fs, st, [],
            [sendErrorResponse (JVal.int i) ErrorCode.InternalError e]))
    ∧ (∀ (mid : JVal) (code : Int) (emsg : String),
        jLookup (sendErrorResponse mid code emsg) "result" = none) := by
  refine ⟨?_, ?_, ?_, ?_⟩
  · intro hpath
    simp [fsReadMsg, handleMessage, handleFsRead, fsReadTry, lookupField, hpath,
      pyTruthyOpt]
  · intro p content hpath hp hread
    simp [fsReadMsg, handleMessage, handleFsRead, fsReadTry, lookupField, hpath,
      pyTruthyOpt, pyTruthy, hp, hread, sendResponse, pyInt, contentResponse]
  · intro p e hpath hp hread
    simp [fsReadMsg, handleMessage, handleFsRead, fsReadTry, lookupField, hpath,
      pyTruthyOpt, pyTruthy, hp, hread]
  · intro mid code emsg
    rfl

/-- Witness for claim C7: concrete read requests — a missing path gives
the InternalError missing-path response, an existing file gives its
content, a non-existent path gives the OSError text and never a
result. -/
theorem fs_read_handler_witness :
    handleMessage fs0 st0 (fsReadMsg 9 []) =
      Except.ok (fs0, st0, [],
        [sendErrorResponse (JVal.int 9) ErrorCode.InternalError missingPathMsg])
    ∧ handleMessage fsB st0 (fsReadMsg 10 [("path", JVal.str "/tmp/a.txt")]) =
      Except.ok (fsB, st0, [], [contentResponse 10 "data"])
    ∧ handleMessage fsB st0 (fsReadMsg 11 [("path", JVal.str "/tmp/missing")]) =
      Except.ok (fsB, st0, [],
        [sendErrorResponse (JVal.int 11) ErrorCode.InternalError
          ("[Errno 2] No such file or directory: " ++ squo ++ "/tmp/missing" ++ squo)]) := by
  refine ⟨(fs_read_handler fs0 st0 9 []).1 rfl, ?_, ?_⟩
  · exact (fs_read_handler fsB st0 10 [("path", JVal.str "/tmp/a.txt")]).2.1
      "/tmp/a.txt" "data" rfl (by decide) rfl
  · exact (fs_read_handler fsB st0 11 [("path", JVal.str "/tmp/missing")]).2.2.1
      "/tmp/missing" ("[Errno 2] No such file or directory: " ++ squo ++ "/tmp/missing" ++ squo)
      rfl (by decide) rfl

/-- Claim C8: for every fs/write_text_file request with a non-empty path
whose dirname is non-empty, the handler creates the parent directory,
overwrites the file with the content, responds with success true, and a
subsequent read of the same path — directly or through the
fs/read_text_file handler — returns the written content; when the local
makedirs fails (a bare filename has an empty dirname, which os.makedirs
rejects) the handler responds with an error response instead, leaving the
filesystem unchanged.  No exception escapes in either case. -/
theorem fs_write_handler (fs : FS) (st : ClientState) (i : Int) (p c : String)
    (hp : p ≠ "") :
    (pyDirname p ≠ "" →
      handleMessage fs st (fsWriteMsg i p c) =
        Except.ok (fsAfterWrite fs p c, st, [], [successResponse i])
      ∧ (fsAfterWrite fs p c).readFile p = Except.ok c
      ∧ ∀ j : Int,
          handleMessage (fsAfterWrite fs p c) st (fsReadMsg j [("path", JVal.str p)]) =
            Except.ok (fsAfterWrite fs p c, st, [], [contentResponse j c]))
    ∧ (pyDirname p = "" →
      handleMessage fs st (fsWriteMsg i p c) =
        Except.ok (fs, st, [],
          [sendErrorResponse (JVal.int i) ErrorCode.InternalError
            ("[Errno 2] No such file or directory: " ++ squo ++ squo)])) := by
  constructor
  · intro hd
    have hread : (fsAfterWrite fs p c).readFile p = Except.ok c := by
      simp [fsAfterWrite, FS.readFile, List.find?]
    refine ⟨?_, hread, ?_⟩
    · simp [fsWriteMsg, handleMessage, handleFsWrite, fsWriteTry, lookupField,
        pyTruthyOpt, pyTruthy, hp, FS.makedirs, hd, FS.writeFile, fsAfterWrite,
        sendResponse, pyInt, successResponse]
    · intro j
      simp [fsReadMsg, handleMessage, handleFsRead, fsReadTry, lookupField,
        pyTruthyOpt, pyTruthy, hp, hread, sendResponse, pyInt, contentResponse]
  · intro hd
    simp [fsWriteMsg, handleMessage, handleFsWrite, fsWriteTry, lookupField,
      pyTruthyOpt, pyTruthy, hp, FS.makedirs, hd]

/-- Witness for claim C8: writing hello to a path whose directories do
not yet exist succeeds with success true, and reading the same path back
through the read handler returns hello. -/
theorem fs_write_handler_witness :
    handleMessage fs0 st0 (fsWriteMsg 3 "/a/b/c.txt" "hello") =
      Except.ok (fsAfterWrite fs0 "/a/b/c.txt" "hello", st0, [], [successResponse 3])
    ∧ handleMessage (fsAfterWrite fs0 "/a/b/c.txt" "hello") st0
        (fsReadMsg 4 [("path", JVal.str "/a/b/c.txt")]) =
      Except.ok (fsAfterWrite fs0 "/a/b/c.txt" "hello", st0, [], [contentResponse 4 "hello"]) := by
  have h := fs_write_handler fs0 st0 3 "/a/b/c.txt" "hello" (by decide)
  exact ⟨(h.1 (by decide)).1, (h.1 (by decide)).2.2 4⟩
